import Mathlib

/-!
# Payment settlement: `api/payments.go` and `models/order.go`

A shallow embedding of the settlement endpoint `PaymentCreate`, its helper
`verifyAmount`, and the order model (`NewOrder`, `CalculateTotal`).

* The store is a pair of tables (orders, transactions).  `a.db.Begin()` hands out a
  working copy, `tx.Rollback()` keeps the table state from before the call and
  `tx.Commit()` publishes the working copy.  The query for the order either finds the
  row or reports that there is none.
* The integer columns of the orders table are signed 64-bit: the table holds only rows
  whose `uint64` fields are below 2^63, and `Save` of an order with a larger field is
  refused by the driver before anything is sent (`uint64 values with high bit set are not
  supported`).  The Go code ignores the result of `Save`, so a refused `Save` leaves the
  row as it was and the call goes on.
* The collaborators (settings fetch, price calculator, card charge, uuid source) are
  functions carried in a `World`; every invocation is written to a trace, so that
  "never invoked" and "invoked exactly once" are statements about the trace.
* `uint64` quantities are natural numbers; the code only copies and compares them, and
  the store compares them with 2^63.
-/

namespace models

/-- PendingState is the pending state of an Order. -/
def PendingState : String := "pending"

/-- PaidState is the paid state of an Order. -/
def PaidState : String := "paid"

/-- ShippedState is the shipped state of an Order. -/
def ShippedState : String := "shipped"

/-- FailedState is the failed state of an Order. -/
def FailedState : String := "failed"

/-- Modelled from the spec: the `LineItem` model is declared outside the sources at hand;
a line item is only handed through to the pricing collaborator, so it is an
uninterpreted payload. -/
structure LineItem where
  payload : String
deriving DecidableEq, Repr

/-- Modelled from the spec: the `Coupon` model is declared outside the sources at hand;
it is only handed through to the pricing collaborator. -/
structure Coupon where
  payload : String
deriving DecidableEq, Repr

/-- Modelled from the spec: the `Address` model is declared outside the sources at hand;
`CalculateTotal` reads its `Country`. -/
structure Address where
  Country : String
deriving DecidableEq, Repr

/-- Modelled from the spec: the settings document (`models.SiteSettings` at the call in
`verifyAmount`, `calculator.Settings` in `CalculateTotal`) is declared outside the sources
at hand; it is only handed through to the pricing collaborator. The zero value
`&models.SiteSettings{}` is the empty payload. -/
structure SiteSettings where
  payload : String
deriving DecidableEq, Repr

/-- Modelled from the spec: the result of the pricing collaborator
(`Compute(...) → {subtotal, taxes, discount, total}`), with the four fields
`CalculateTotal` reads. -/
structure Price where
  Subtotal : Nat
  Taxes : Nat
  Discount : Nat
  Total : Nat
deriving DecidableEq, Repr

/-- Order model: the stored columns of `models.Order` together with the associations
the settlement code reads (`LineItems`, `ShippingAddress`, `Coupon`). The `Transactions`
association is the transactions table of the store, keyed by `OrderID`. -/
structure Order where
  ID : String
  IP : String
  UserID : String
  SessionID : String
  Email : String
  LineItems : List LineItem
  Currency : String
  Taxes : Nat
  Shipping : Nat
  SubTotal : Nat
  Discount : Nat
  Total : Nat
  PaymentState : String
  FulfillmentState : String
  State : String
  PaymentProcessor : String
  ShippingAddress : Address
  VATNumber : String
  CouponCode : String
  Coupon : Option Coupon
deriving DecidableEq, Repr

/-- An order that the orders table can hold: each `uint64` field fits a signed 64-bit
column, as the driver demands of an argument. -/
def Order.Storable (o : Order) : Prop :=
  o.Taxes < 2 ^ 63 ∧ o.Shipping < 2 ^ 63 ∧ o.SubTotal < 2 ^ 63 ∧ o.Discount < 2 ^ 63 ∧
    o.Total < 2 ^ 63

instance (o : Order) : Decidable o.Storable := by
  unfold Order.Storable
  infer_instance

/-- Modelled from the spec: the `Transaction` model is declared outside the sources at hand.
It has a unique ID, a reference to exactly one Order, the processor-assigned charge
identifier, a status, a failure code and a failure description (the four fields
`PaymentCreate` writes). -/
structure Transaction where
  ID : String
  OrderID : String
  ProcessorID : String
  FailureCode : String
  FailureDescription : String
  Status : String
deriving DecidableEq, Repr

/-- NewOrder creates a new pending Order. The first argument stands for
`uuid.NewRandom().String()`. -/
def NewOrder (id sessionID email currency : String) : Order :=
  { ID := id, IP := "", UserID := "", SessionID := sessionID, Email := email,
    LineItems := [], Currency := currency, Taxes := 0, Shipping := 0, SubTotal := 0,
    Discount := 0, Total := 0,
    PaymentState := PendingState, FulfillmentState := PendingState, State := PendingState,
    PaymentProcessor := "", ShippingAddress := { Country := "" }, VATNumber := "",
    CouponCode := "", Coupon := none }

/-- Modelled from the spec: `models.NewTransaction` is declared outside the sources at hand.
A new Transaction has a fresh ID (first argument) and refers to the given Order; the
fields `PaymentCreate` fills in afterwards start at their zero value. -/
def NewTransaction (id : String) (order : Order) : Transaction :=
  { ID := id, OrderID := order.ID, ProcessorID := "", FailureCode := "",
    FailureDescription := "", Status := "" }

/-- The type of `calculator.CalculatePrice`, the pricing collaborator: settings, claims,
country, currency, coupon and items give a price. -/
abbrev Calculator :=
  SiteSettings → List (String × String) → String → String → Option Coupon → List LineItem → Price

/-- CalculateTotal calculates the total price of an Order. -/
def Order.CalculateTotal (CalculatePrice : Calculator) (o : Order) (settings : SiteSettings)
    (claims : List (String × String)) : Order :=
  let items := o.LineItems
  let price := CalculatePrice settings claims o.ShippingAddress.Country o.Currency o.Coupon items
  { o with SubTotal := price.Subtotal, Taxes := price.Taxes, Discount := price.Discount,
           Total := price.Total }

end models

namespace api

open models

/-- PaymentParams holds the parameters for creating a payment. -/
structure PaymentParams where
  Amount : Nat
  Currency : String
  StripeToken : String
deriving DecidableEq, Repr

/-- The JSON object of a request body: each of the three keys of `PaymentParams` is
present or absent. -/
structure PaymentJSON where
  amount : Option Nat
  currency : Option String
  stripe_token : Option String
deriving DecidableEq, Repr

/-- The effect of `jsonDecoder.Decode(params)` on an already initialised `PaymentParams`:
a key that is present overwrites the field, an absent key leaves it. -/
def Decode (params : PaymentParams) (j : PaymentJSON) : PaymentParams :=
  { Amount := j.amount.getD params.Amount,
    Currency := j.currency.getD params.Currency,
    StripeToken := j.stripe_token.getD params.StripeToken }

/-- The claims of the caller token; `PaymentCreate` reads `claims.ID`. -/
structure JWTClaims where
  ID : String
deriving DecidableEq, Repr

/-- The fields of `stripe.ChargeParams` that `PaymentCreate` sets. -/
structure ChargeParams where
  Amount : Nat
  Source : String
  Currency : String
deriving DecidableEq, Repr

/-- The charge object returned by the processor; `PaymentCreate` reads `ch.ID`. -/
structure Charge where
  ID : String
deriving DecidableEq, Repr

/-- The answer of the settings fetch: a status code, and what decoding the body into a
settings document gives (a decode error or the settings). -/
structure HTTPResponse where
  StatusCode : Nat
  Body : Except String SiteSettings

/-- Modelled from the spec: the response helpers (`badRequestError`, `notFoundError`,
`unauthorizedError`, `internalServerError`, `sendJSON`) are declared outside the sources at
hand; a response is recorded as the helper that was called and its arguments. -/
inductive Response where
  | badRequestError (msg : String)
  | notFoundError (msg : String)
  | unauthorizedError (msg : String)
  | internalServerError (msg : String)
  | sendJSON (code : Nat) (tr : Transaction)
deriving DecidableEq, Repr

/-- One invocation of a collaborator. -/
inductive Event where
  | settingsGet (url : String)
  | calculatePrice (settings : SiteSettings)
  | chargeNew (params : ChargeParams)
  | orderConfirmationMail (tr : Transaction)
  | orderReceivedMail (tr : Transaction)
deriving DecidableEq, Repr

/-- The store: the orders table and the transactions table. Every row of the orders table
is one the table can hold. -/
structure DB where
  orders : List Order
  transactions : List Transaction
  storable : ∀ o ∈ orders, o.Storable

instance : DecidableEq DB := fun a b =>
  decidable_of_iff (a.orders = b.orders ∧ a.transactions = b.transactions) (by
    cases a
    cases b
    simp)

/-- The query `First(order, "id = ?", orderID)`: the first order row with this ID. -/
def DB.First (db : DB) (orderID : String) : Option Order :=
  db.orders.find? (fun o => decide (o.ID = orderID))

/-- The statement `Save(order)` on an existing row: the row with the primary key of
`order` is overwritten by `order`. When a `uint64` field of `order` has the high bit set
the driver refuses the argument, the statement fails and the row stays as it was; the
caller sees this only in the result of `Save`. -/
def DB.Save (db : DB) (order : Order) : DB :=
  if h : order.Storable then
    { orders := db.orders.map (fun o => if o.ID = order.ID then order else o),
      transactions := db.transactions,
      storable := by
        intro o ho
        rcases List.mem_map.mp ho with ⟨x, hx, hxo⟩
        subst hxo
        split
        · exact h
        · exact db.storable x hx }
  else db

/-- The statement `Create(tr)`: the transaction row is appended. -/
def DB.Create (db : DB) (tr : Transaction) : DB :=
  { db with transactions := db.transactions ++ [tr] }

/-- What a request carries: the decoded body (or the decoder error), the `order_id`
path parameter and the caller token (`getToken(ctx)`, nil when unauthenticated). -/
structure Request where
  body : Except String PaymentJSON
  order_id : String
  token : Option JWTClaims

/-- The collaborators of one call: the configured site URL, the HTTP client used for the
settings fetch, the price calculator, the card processor (`charge.New`, which returns a
charge pointer and an error, each possibly nil) and the uuid for a new Transaction. -/
structure World where
  SiteURL : String
  Get : String → Except String HTTPResponse
  CalculatePrice : Calculator
  chargeNew : ChargeParams → Option Charge × Option String
  uuid : String

/-- The result of a call: the store afterwards, the response written, and the
collaborator invocations in order. -/
structure Outcome where
  db : DB
  response : Response
  trace : List Event
deriving DecidableEq

/-- The helper `verifyAmount`: fetches the settings, recomputes the total of the order (in
place, so the order is returned as well) and compares it with the amount. Returns the
error (nil on success), the order as mutated, and the collaborator invocations. -/
def verifyAmount (w : World) (order : Order) (amount : Nat) :
    Option String × Order × List Event :=
  let settings : SiteSettings := { payload := "" }
  let url := w.SiteURL ++ "/netlify-commerce/settings.json"
  match w.Get url with
  | .error err => (some err, order, [Event.settingsGet url])
  | .ok resp =>
    let decoded : Except String SiteSettings :=
      if resp.StatusCode = 200 then resp.Body else .ok settings
    match decoded with
    | .error err => (some err, order, [Event.settingsGet url])
    | .ok settings =>
      let order := order.CalculateTotal w.CalculatePrice settings []
      if order.Total ≠ amount then
        (some ("Amount calculated for order didn't match amount to charge. "
                ++ toString order.Total ++ " vs " ++ toString amount),
          order, [Event.settingsGet url, Event.calculatePrice settings])
      else
        (none, order, [Event.settingsGet url, Event.calculatePrice settings])

/-- PaymentCreate is the endpoint for creating a payment for an order. -/
def PaymentCreate (w : World) (db : DB) (r : Request) : Outcome :=
  match r.body with
  | .error err =>
    { db := db, response := .badRequestError ("Could not read params: " ++ err), trace := [] }
  | .ok json =>
    let params := Decode { Amount := 0, Currency := "USD", StripeToken := "" } json
    if params.StripeToken = "" then
      { db := db, response := .badRequestError "Payments requires a stripe_token", trace := [] }
    else
      let tx := db
      match tx.First r.order_id with
      | none =>
        { db := db, response := .notFoundError "No order with this ID found", trace := [] }
      | some order =>
        if order.PaymentState = PaidState then
          { db := db, response := .badRequestError "This order has already been paid",
            trace := [] }
        else if order.Currency ≠ params.Currency then
          { db := db,
            response := .badRequestError
              ("Currencies doesn't match - " ++ order.Currency ++ " vs " ++ params.Currency),
            trace := [] }
        else
          let owned : Option (Order × DB) :=
            if order.UserID = "" then
              match r.token with
              | some claims =>
                let order := { order with UserID := claims.ID }
                some (order, tx.Save order)
              | none => some (order, tx)
            else
              match r.token with
              | none => none
              | some claims => if order.UserID ≠ claims.ID then none else some (order, tx)
          match owned with
          | none =>
            { db := db,
              response := .unauthorizedError "You must be logged in to pay for this order",
              trace := [] }
          | some (order, tx) =>
            match verifyAmount w order params.Amount with
            | (some err, _, evs) =>
              { db := db,
                response := .internalServerError
                  ("We failed to authorize the amount for this order: " ++ err),
                trace := evs }
            | (none, order, evs) =>
              let cp : ChargeParams :=
                { Amount := params.Amount, Source := params.StripeToken, Currency := "USD" }
              let (ch, err) := w.chargeNew cp
              let tr := NewTransaction w.uuid order
              let tr := match ch with
                | some c => { tr with ProcessorID := c.ID }
                | none => tr
              let tr := match err with
                | some e => { tr with FailureCode := "500", FailureDescription := e,
                                      Status := "failed" }
                | none => { tr with Status := "pending" }
              let tx := tx.Create tr
              match err with
              | some e =>
                { db := tx,
                  response := .internalServerError
                    ("There was an error charging your card: " ++ e),
                  trace := evs ++ [Event.chargeNew cp] }
              | none =>
                let order := { order with PaymentState := PaidState }
                let tx := tx.Save order
                { db := tx,
                  response := .sendJSON 200 tr,
                  trace := evs ++ [Event.chargeNew cp, Event.orderConfirmationMail tr,
                                   Event.orderReceivedMail tr] }


/-! ## Derived notions used to state the properties -/

/-- The parameters of the charge invocations in a trace, in order. -/
def chargeCalls : List Event → List ChargeParams
  | [] => []
  | Event.chargeNew p :: evs => p :: chargeCalls evs
  | _ :: evs => chargeCalls evs

/-- The parameters as `PaymentCreate` holds them after decoding a body. -/
def paramsOf (json : PaymentJSON) : PaymentParams :=
  Decode { Amount := 0, Currency := "USD", StripeToken := "" } json

/-- The address of the settings document the helper fetches. -/
def settingsURL (w : World) : String := w.SiteURL ++ "/netlify-commerce/settings.json"

/-- The error text of `verifyAmount` for a recomputed total that differs from the amount. -/
def mismatchError (total amount : Nat) : String :=
  "Amount calculated for order didn't match amount to charge. "
    ++ toString total ++ " vs " ++ toString amount

/-- The order as `PaymentCreate` holds it after ownership resolution, on the paths where
the call goes on: an anonymous order takes the identity of an authenticated caller. -/
def claimedOrder (order : Order) (token : Option JWTClaims) : Order :=
  match token with
  | some claims => if order.UserID = "" then { order with UserID := claims.ID } else order
  | none => order

/-- The working copy of the store after ownership resolution, on the paths where the call
goes on: the claimed order has been saved when a claim took place. -/
def claimedDB (db : DB) (order : Order) (token : Option JWTClaims) : DB :=
  match token with
  | some claims =>
    if order.UserID = "" then db.Save { order with UserID := claims.ID } else db
  | none => db

/-- The order as `PaymentCreate` saves it after a charge without error: claimed, with the
totals recomputed under `settings`, and paid. -/
def settledOrder (w : World) (order : Order) (token : Option JWTClaims)
    (settings : SiteSettings) : Order :=
  { (claimedOrder order token).CalculateTotal w.CalculatePrice settings [] with
    PaymentState := PaidState }

/-- The Transaction row that records the outcome of the charge `cp` for `order`. -/
def recordOf (w : World) (order : Order) (cp : ChargeParams) : Transaction :=
  { ID := w.uuid, OrderID := order.ID,
    ProcessorID := match (w.chargeNew cp).1 with
      | some c => c.ID
      | none => "",
    FailureCode := match (w.chargeNew cp).2 with
      | some _ => "500"
      | none => "",
    FailureDescription := match (w.chargeNew cp).2 with
      | some e => e
      | none => "",
    Status := match (w.chargeNew cp).2 with
      | some _ => "failed"
      | none => "pending" }

/-- The conditions under which a call gets past ownership resolution: the body decodes,
the charge token is present, the order exists, is unpaid, has the requested currency, and
is anonymous or owned by the caller. -/
def Validated (db : DB) (r : Request) (json : PaymentJSON) (order : Order) : Prop :=
  r.body = .ok json ∧ (paramsOf json).StripeToken ≠ "" ∧
  db.First r.order_id = some order ∧ order.PaymentState ≠ PaidState ∧
  order.Currency = (paramsOf json).Currency ∧
  (order.UserID = "" ∨ r.token = some ⟨order.UserID⟩)

/-- The store after a sequence of `PaymentCreate` calls, one after the other, each with its
own collaborators and request. -/
def runCalls (db : DB) : List (World × Request) → DB
  | [] => db
  | c :: cs => runCalls (PaymentCreate c.1 db c.2).db cs

/-- The Transactions of the order with the given ID whose status is not "failed". -/
def settledFor (db : DB) (orderID : String) : List Transaction :=
  db.transactions.filter (fun t => decide (t.OrderID = orderID) && decide (t.Status ≠ FailedState))

/-- A store as it is before any settlement: every order is as `NewOrder` made it and there
is no Transaction. -/
def FreshStore (db : DB) : Prop :=
  db.transactions = [] ∧ ∀ o ∈ db.orders, ∃ id sessionID email currency,
    o = NewOrder id sessionID email currency

/-- A condition on each call of a sequence, the call taken at the store the calls before
it have left. -/
def Along (P : World → DB → Request → Prop) (db : DB) : List (World × Request) → Prop
  | [] => True
  | c :: cs => P c.1 db c.2 ∧ Along P (PaymentCreate c.1 db c.2).db cs

/-- Every total recomputed in this call gives an order whose `uint64` fields fit the signed
64-bit columns of the store. -/
def PricesFit (w : World) (db : DB) (r : Request) : Prop :=
  ∀ settings, Event.calculatePrice settings ∈ (PaymentCreate w db r).trace →
    ∀ order, db.First r.order_id = some order →
      (order.CalculateTotal w.CalculatePrice settings []).Storable

/-- Every charge made in this call that came back without error carries a charge whose
identifier is not empty. -/
def ChargesIdentified (w : World) (db : DB) (r : Request) : Prop :=
  ∀ p, Event.chargeNew p ∈ (PaymentCreate w db r).trace → (w.chargeNew p).2 = none →
    ∃ c, (w.chargeNew p).1 = some c ∧ c.ID ≠ ""

/-- The property of the ledger: every paid order has exactly one Transaction that is not
failed, and that Transaction satisfies `good`. -/
def PaidHasOne (good : Transaction → Prop) (db : DB) : Prop :=
  ∀ o ∈ db.orders, o.PaymentState = PaidState → ∃ t, settledFor db o.ID = [t] ∧ good t

/-- The ledger invariant kept by `PaymentCreate`: a paid order has exactly one Transaction
that is not failed (and it satisfies `good`), an order that is not paid has none. -/
def LedgerInv (good : Transaction → Prop) (db : DB) : Prop :=
  ∀ o ∈ db.orders,
    (o.PaymentState = PaidState → ∃ t, settledFor db o.ID = [t] ∧ good t) ∧
    (o.PaymentState ≠ PaidState → settledFor db o.ID = [])

/-! ## Concrete collaborators, stores and requests -/

/-- A world in which the settings are served, the order is priced at 1000 and the charge
succeeds with reference "ch_1". -/
def wPaid : World :=
  { SiteURL := "https://shop.example",
    Get := fun _ => .ok { StatusCode := 200, Body := .ok { payload := "vat" } },
    CalculatePrice := fun _ _ _ _ _ _ =>
      { Subtotal := 900, Taxes := 100, Discount := 0, Total := 1000 },
    chargeNew := fun _ => (some { ID := "ch_1" }, none),
    uuid := "tr_1" }

/-- As `wPaid`, but the processor declines the card. -/
def wDeclined : World :=
  { wPaid with chargeNew := fun _ => (none, some "card_declined") }

/-- As `wPaid`, but the charge comes back without error and with an empty identifier. -/
def wNoReference : World :=
  { wPaid with chargeNew := fun _ => (some { ID := "" }, none) }

/-- As `wPaid`, with another uuid for the Transaction. -/
def wPaidAgain : World :=
  { wPaid with uuid := "tr_2" }

/-- As `wPaid`, but the order is priced at 2^63. -/
def wHuge : World :=
  { wPaid with CalculatePrice := fun _ _ _ _ _ _ =>
      { Subtotal := 9223372036854775808, Taxes := 0, Discount := 0,
        Total := 9223372036854775808 } }

/-- As `wPaid`, but the settings fetch fails. -/
def wUnreachable : World :=
  { wPaid with Get := fun _ => .error "dial tcp: connection refused" }

/-- As `wPaid`, but the settings answer is status 500 with a body that does not decode. -/
def wServerError : World :=
  { wPaid with Get := fun _ => .ok { StatusCode := 500, Body := .error "unexpected end of JSON input" } }

/-- An anonymous pending order in USD. -/
def orderAnon : Order := NewOrder "o1" "s1" "a@b.c" "USD"

/-- A pending order in USD owned by "U1". -/
def orderOwned : Order := { orderAnon with UserID := "U1" }

/-- A paid order. -/
def orderPaid : Order := { orderOwned with PaymentState := PaidState }

/-- The anonymous order after a settlement at the price of `wPaid`. -/
def orderSettled : Order :=
  { orderAnon with SubTotal := 900, Taxes := 100, Total := 1000, PaymentState := PaidState }

/-- The store holding the settled order and one pending Transaction without processor
reference. -/
def storeNoReference : DB :=
  { orders := [orderSettled], transactions := [⟨"tr_1", "o1", "", "", "", "pending"⟩],
    storable := by decide }

/-- An anonymous pending order in EUR. -/
def orderEUR : Order := NewOrder "o1" "s1" "a@b.c" "EUR"

/-- A store holding just the given order (no row when the table cannot hold it). -/
def storeOf (o : Order) : DB :=
  if h : o.Storable then
    { orders := [o], transactions := [],
      storable := by
        intro x hx
        rw [List.mem_singleton.mp hx]
        exact h }
  else
    { orders := [], transactions := [],
      storable := by
        intro x hx
        cases hx }

/-- A request for order "o1": amount, currency key, charge token, caller. -/
def request (amount : Nat) (currency : Option String) (stripe_token : Option String)
    (token : Option JWTClaims) : Request :=
  { body := .ok { amount := some amount, currency := currency, stripe_token := stripe_token },
    order_id := "o1", token := token }

end api

/-! ## Lemmas on the store and on the two functions -/

namespace api

open models

theorem First_ID (db : DB) (id : String) (o : Order) (h : db.First id = some o) : o.ID = id := by
  unfold DB.First at h
  have := List.find?_some h
  simpa using this

theorem First_Create (db : DB) (tr : Transaction) (id : String) :
    (db.Create tr).First id = db.First id := rfl

theorem First_mem (db : DB) (id : String) (o : Order) (h : db.First id = some o) :
    o ∈ db.orders := by
  unfold DB.First at h
  exact List.mem_of_find?_eq_some h

theorem First_Storable (db : DB) (id : String) (o : Order) (h : db.First id = some o) :
    o.Storable :=
  db.storable o (First_mem db id o h)

theorem find_replace (l : List Order) (id : String) (o o2 : Order)
    (h : l.find? (fun x => decide (x.ID = id)) = some o) (hid : o2.ID = id) :
    (l.map (fun x => if x.ID = o2.ID then o2 else x)).find? (fun x => decide (x.ID = id))
      = some o2 := by
  induction l with
  | nil => simp at h
  | cons x xs ih =>
    by_cases hx : x.ID = id
    · simp [List.find?, hx, hid]
    · have hx2 : ¬ x.ID = o2.ID := by rw [hid]; exact hx
      simp only [List.find?, hx, decide_False] at h
      simp only [List.map, hx2, if_false, List.find?, hx, decide_False]
      exact ih h

theorem Save_stored (db : DB) (o2 : Order) (hs : o2.Storable) :
    (db.Save o2).orders = db.orders.map (fun x => if x.ID = o2.ID then o2 else x) := by
  unfold DB.Save
  rw [dif_pos hs]

theorem Save_refused (db : DB) (o2 : Order) (hs : ¬ o2.Storable) : db.Save o2 = db := by
  unfold DB.Save
  rw [dif_neg hs]

theorem Save_transactions (db : DB) (o2 : Order) :
    (db.Save o2).transactions = db.transactions := by
  unfold DB.Save
  split <;> rfl

theorem First_Save (db : DB) (id : String) (o o2 : Order) (h : db.First id = some o)
    (hid : o2.ID = id) (hs : o2.Storable) : (db.Save o2).First id = some o2 := by
  unfold DB.First at h ⊢
  rw [Save_stored db o2 hs]
  exact find_replace db.orders id o o2 h hid

theorem claimedOrder_Storable (order : Order) (token : Option JWTClaims)
    (h : order.Storable) : (claimedOrder order token).Storable := by
  unfold claimedOrder
  split <;> [split; skip] <;> exact h

theorem claimedOrder_ID (order : Order) (token : Option JWTClaims) :
    (claimedOrder order token).ID = order.ID := by
  unfold claimedOrder
  split <;> [split; skip] <;> rfl

theorem claimedOrder_PaymentState (order : Order) (token : Option JWTClaims) :
    (claimedOrder order token).PaymentState = order.PaymentState := by
  unfold claimedOrder
  split <;> [split; skip] <;> rfl

theorem claimedOrder_Total (price : Calculator) (order : Order) (token : Option JWTClaims)
    (settings : SiteSettings) :
    ((claimedOrder order token).CalculateTotal price settings []).Total
      = (order.CalculateTotal price settings []).Total := by
  unfold claimedOrder
  split <;> [split; skip] <;> rfl

theorem claimedDB_transactions (db : DB) (order : Order) (token : Option JWTClaims) :
    (claimedDB db order token).transactions = db.transactions := by
  unfold claimedDB
  split
  · split
    · exact Save_transactions db _
    · rfl
  · rfl

theorem claimedDB_First (db : DB) (id : String) (order : Order) (token : Option JWTClaims)
    (h : db.First id = some order) :
    (claimedDB db order token).First id = some (claimedOrder order token) := by
  have hid := First_ID db id order h
  have hst := First_Storable db id order h
  unfold claimedDB claimedOrder
  split
  · split
    · exact First_Save db id order _ h hid hst
    · exact h
  · exact h

theorem verifyAmount_ID (w : World) (o : Order) (a : Nat) :
    (verifyAmount w o a).2.1.ID = o.ID := by
  unfold verifyAmount
  simp only
  split
  · rfl
  · split
    · rfl
    · split <;> rfl

/-- The two ways `verifyAmount` can go: the settings are not obtained (the fetch fails, or
the answer has status 200 and does not decode), or they are and the total is recomputed
and compared. -/
theorem verifyAmount_cases (w : World) (o : Order) (a : Nat) :
    (∃ err, verifyAmount w o a = (some err, o, [Event.settingsGet (settingsURL w)]) ∧
      (w.Get (settingsURL w) = .error err ∨
        ∃ resp, w.Get (settingsURL w) = .ok resp ∧ resp.StatusCode = 200 ∧
          resp.Body = .error err)) ∨
    (∃ resp settings, w.Get (settingsURL w) = .ok resp ∧
      (if resp.StatusCode = 200 then resp.Body else .ok { payload := "" }) = .ok settings ∧
      verifyAmount w o a =
        (if (o.CalculateTotal w.CalculatePrice settings []).Total ≠ a then
            some (mismatchError (o.CalculateTotal w.CalculatePrice settings []).Total a)
          else none,
         o.CalculateTotal w.CalculatePrice settings [],
         [Event.settingsGet (settingsURL w), Event.calculatePrice settings])) := by
  unfold verifyAmount settingsURL mismatchError
  simp only
  rcases hget : w.Get (w.SiteURL ++ "/netlify-commerce/settings.json") with err | resp
  · left
    exact ⟨err, rfl, Or.inl rfl⟩
  · simp only
    by_cases h200 : resp.StatusCode = 200
    · rcases hbody : resp.Body with err | settings
      · left
        refine ⟨err, ?_, Or.inr ⟨resp, rfl, h200, hbody⟩⟩
        simp [h200, hbody]
      · right
        refine ⟨resp, settings, rfl, by simp [h200, hbody], ?_⟩
        simp only [h200, hbody, if_true]
        split <;> rfl
    · right
      refine ⟨resp, { payload := "" }, rfl, by simp [h200], ?_⟩
      simp only [h200, if_false]
      split <;> rfl

/-- The value of `PaymentCreate` on a call that gets past ownership resolution. -/
theorem PaymentCreate_validated (w : World) (db : DB) (r : Request) (json : PaymentJSON)
    (order : Order) (hv : Validated db r json order) :
    PaymentCreate w db r =
      match verifyAmount w (claimedOrder order r.token) (paramsOf json).Amount with
      | (some err, _, evs) =>
        { db := db,
          response := .internalServerError
            ("We failed to authorize the amount for this order: " ++ err),
          trace := evs }
      | (none, o2, evs) =>
        let cp : ChargeParams :=
          ⟨(paramsOf json).Amount, (paramsOf json).StripeToken, "USD"⟩
        match (w.chargeNew cp).2 with
        | some e =>
          { db := (claimedDB db order r.token).Create (recordOf w order cp),
            response := .internalServerError ("There was an error charging your card: " ++ e),
            trace := evs ++ [Event.chargeNew cp] }
        | none =>
          { db := ((claimedDB db order r.token).Create (recordOf w order cp)).Save
                    { o2 with PaymentState := PaidState },
            response := .sendJSON 200 (recordOf w order cp),
            trace := evs ++ [Event.chargeNew cp, Event.orderConfirmationMail (recordOf w order cp),
                             Event.orderReceivedMail (recordOf w order cp)] } := by
  obtain ⟨hb, hs, hf, hp, hc, ho⟩ := hv
  have hid := verifyAmount_ID w (claimedOrder order r.token) (paramsOf json).Amount
  rw [claimedOrder_ID] at hid
  have hs2 : ¬ (Decode { Amount := 0, Currency := "USD", StripeToken := "" } json).StripeToken
      = "" := hs
  have hc2 : ¬ order.Currency
      ≠ (Decode { Amount := 0, Currency := "USD", StripeToken := "" } json).Currency := by
    simpa [paramsOf] using hc
  unfold PaymentCreate
  simp only [hb, hf, if_neg hs2, if_neg hp, if_neg hc2]
  have key : ∀ (o1 : Order) (tx1 : DB), claimedOrder order r.token = o1 →
      claimedDB db order r.token = tx1 →
      (if order.UserID = "" then
          match r.token with
          | some claims =>
            some ({ order with UserID := claims.ID }, db.Save { order with UserID := claims.ID })
          | none => some (order, db)
        else
          match r.token with
          | none => none
          | some claims => if order.UserID ≠ claims.ID then none else some (order, db))
        = some (o1, tx1) := by
    intro o1 tx1 h1 h2
    subst h1 h2
    rcases ho with hu | ht
    · rcases htk : r.token with _ | claims <;> simp [hu, claimedOrder, claimedDB]
    · by_cases hu : order.UserID = ""
      · simp [hu, ht, claimedOrder, claimedDB]
      · simp [hu, ht, claimedOrder, claimedDB]
  rw [key _ _ rfl rfl]
  clear key
  simp only [paramsOf, recordOf] at hid ⊢
  generalize verifyAmount w _ _ = v at hid ⊢
  rcases v with ⟨_ | err, o2, evs⟩
  · obtain ⟨url, get, cpr, chg, uuid⟩ := w
    simp only at hid ⊢
    generalize chg _ = c
    rcases c with ⟨_ | ch, _ | e⟩ <;> simp [NewTransaction, hid]
  · rfl

/-- A call either gets past ownership resolution, or leaves the store as it was and
invokes no collaborator. -/
theorem PaymentCreate_cases (w : World) (db : DB) (r : Request) :
    ((PaymentCreate w db r).db = db ∧ (PaymentCreate w db r).trace = []) ∨
    ∃ json order, Validated db r json order := by
  unfold PaymentCreate
  split
  · exact Or.inl ⟨rfl, rfl⟩
  · rename_i json hb
    simp only
    split
    · exact Or.inl ⟨rfl, rfl⟩
    · rename_i hs
      split
      · exact Or.inl ⟨rfl, rfl⟩
      · rename_i order hf
        split
        · exact Or.inl ⟨rfl, rfl⟩
        · rename_i hp
          split
          · exact Or.inl ⟨rfl, rfl⟩
          · rename_i hc
            split
            · exact Or.inl ⟨rfl, rfl⟩
            · rename_i o1 tx1 how
              right
              refine ⟨json, order, hb, hs, hf, hp, by simpa using hc, ?_⟩
              by_cases hu : order.UserID = ""
              · exact Or.inl hu
              · right
                rw [if_neg hu] at how
                split at how
                · simp at how
                · rename_i claims htk
                  split at how
                  · simp at how
                  · rename_i hne
                    have : order.UserID = claims.ID := by simpa using hne
                    rw [htk, this]

/-- What is known of a call whose trace holds a charge: it got past ownership resolution,
the settings were obtained, the recomputed total equals the amount, the charge was made
with the requested amount, the charge token and the currency "USD", and the outcome of the
charge decides the rest. -/
theorem charge_path (w : World) (db : DB) (r : Request) (p : ChargeParams)
    (h : Event.chargeNew p ∈ (PaymentCreate w db r).trace) :
    ∃ json order settings,
      Validated db r json order ∧
      (order.CalculateTotal w.CalculatePrice settings []).Total = (paramsOf json).Amount ∧
      p = ⟨(paramsOf json).Amount, (paramsOf json).StripeToken, "USD"⟩ ∧
      (∀ e, (w.chargeNew p).2 = some e →
        PaymentCreate w db r =
          { db := (claimedDB db order r.token).Create (recordOf w order p),
            response := .internalServerError ("There was an error charging your card: " ++ e),
            trace := [Event.settingsGet (settingsURL w), Event.calculatePrice settings,
                      Event.chargeNew p] }) ∧
      ((w.chargeNew p).2 = none →
        PaymentCreate w db r =
          { db := ((claimedDB db order r.token).Create (recordOf w order p)).Save
                    (settledOrder w order r.token settings),
            response := .sendJSON 200 (recordOf w order p),
            trace := [Event.settingsGet (settingsURL w), Event.calculatePrice settings,
                      Event.chargeNew p, Event.orderConfirmationMail (recordOf w order p),
                      Event.orderReceivedMail (recordOf w order p)] }) := by
  rcases PaymentCreate_cases w db r with ⟨-, ht⟩ | ⟨json, order, hv⟩
  · rw [ht] at h
    simp at h
  · have heq := PaymentCreate_validated w db r json order hv
    rcases verifyAmount_cases w (claimedOrder order r.token) (paramsOf json).Amount with
      ⟨err, hva, -⟩ | ⟨resp, settings, -, -, hva⟩
    · rw [hva] at heq
      rw [heq] at h
      simp at h
    · by_cases htot : ((claimedOrder order r.token).CalculateTotal w.CalculatePrice
          settings []).Total = (paramsOf json).Amount
      · rw [hva, if_neg (not_not.mpr htot)] at heq
        dsimp only at heq
        have hp : p = ⟨(paramsOf json).Amount, (paramsOf json).StripeToken, "USD"⟩ := by
          rw [heq] at h
          split at h <;> simpa using h
        refine ⟨json, order, settings, hv, ?_, hp, ?_, ?_⟩
        · rw [← claimedOrder_Total w.CalculatePrice order r.token]
          exact htot
        · intro e he
          rw [heq, hp]
          rw [hp] at he
          simp only [he, List.cons_append, List.nil_append]
        · intro he
          rw [heq, hp]
          rw [hp] at he
          simp only [he, List.cons_append, List.nil_append, settledOrder]
      · rw [hva, if_pos htot] at heq
        rw [heq] at h
        simp at h

end api

/-! ## The ledger invariant -/

namespace api

open models

theorem mem_Save (db : DB) (x o : Order) (hs : x.Storable) (h : o ∈ (db.Save x).orders) :
    o = x ∨ (o ∈ db.orders ∧ o.ID ≠ x.ID) := by
  rw [Save_stored db x hs] at h
  simp only [List.mem_map] at h
  obtain ⟨y, hy, hyo⟩ := h
  by_cases hid : y.ID = x.ID
  · rw [if_pos hid] at hyo
    exact Or.inl hyo.symm
  · rw [if_neg hid] at hyo
    subst hyo
    exact Or.inr ⟨hy, hid⟩

theorem mem_claimedDB (db : DB) (order : Order) (token : Option JWTClaims) (o : Order)
    (hst : order.Storable) (h : o ∈ (claimedDB db order token).orders) :
    o = claimedOrder order token ∨ o ∈ db.orders := by
  unfold claimedDB at h
  unfold claimedOrder
  split at h
  · split at h
    · rename_i hu
      rw [if_pos hu]
      rcases mem_Save _ _ _ (by exact hst) h with h1 | h1
      · exact Or.inl h1
      · exact Or.inr h1.1
    · exact Or.inr h
  · exact Or.inr h

theorem settledFor_Create (db : DB) (tr : Transaction) (id : String) :
    settledFor (db.Create tr) id =
      settledFor db id ++
        (if tr.OrderID = id ∧ tr.Status ≠ FailedState then [tr] else []) := by
  unfold settledFor DB.Create
  simp only [List.filter_append, List.filter_cons, List.filter_nil, Bool.and_eq_true,
    decide_eq_true_eq]

theorem settledFor_Save (db : DB) (x : Order) (id : String) :
    settledFor (db.Save x) id = settledFor db id := by
  unfold settledFor
  rw [Save_transactions]

theorem settledFor_claimedDB (db : DB) (order : Order) (token : Option JWTClaims)
    (id : String) : settledFor (claimedDB db order token) id = settledFor db id := by
  unfold settledFor
  rw [claimedDB_transactions]

theorem recordOf_failed (w : World) (order : Order) (p : ChargeParams) (e : String)
    (he : (w.chargeNew p).2 = some e) : (recordOf w order p).Status = FailedState := by
  simp [recordOf, he, FailedState]

theorem recordOf_pending (w : World) (order : Order) (p : ChargeParams)
    (he : (w.chargeNew p).2 = none) : (recordOf w order p).Status ≠ FailedState := by
  simp [recordOf, he, FailedState]

theorem settledOrder_ID (w : World) (order : Order) (token : Option JWTClaims)
    (settings : SiteSettings) : (settledOrder w order token settings).ID = order.ID := by
  show (claimedOrder order token).ID = order.ID
  exact claimedOrder_ID order token

theorem settledOrder_Storable (w : World) (order : Order) (token : Option JWTClaims)
    (settings : SiteSettings)
    (h : (order.CalculateTotal w.CalculatePrice settings []).Storable) :
    (settledOrder w order token settings).Storable := by
  unfold settledOrder claimedOrder
  split <;> [split; skip] <;> exact h

/-- A call either leaves the store as it was and makes no charge, or makes a charge. -/
theorem charged_or_unchanged (w : World) (db : DB) (r : Request) :
    ((PaymentCreate w db r).db = db ∧ chargeCalls (PaymentCreate w db r).trace = []) ∨
    ∃ p, Event.chargeNew p ∈ (PaymentCreate w db r).trace := by
  rcases PaymentCreate_cases w db r with ⟨hdb, ht⟩ | ⟨json, order, hv⟩
  · left
    rw [ht]
    exact ⟨hdb, rfl⟩
  · have heq := PaymentCreate_validated w db r json order hv
    rcases verifyAmount_cases w (claimedOrder order r.token) (paramsOf json).Amount with
      ⟨err, hva, -⟩ | ⟨resp, settings, -, -, hva⟩
    · left
      rw [heq, hva]
      exact ⟨rfl, rfl⟩
    · by_cases htot : ((claimedOrder order r.token).CalculateTotal w.CalculatePrice
          settings []).Total = (paramsOf json).Amount
      · right
        rw [hva, if_neg (not_not.mpr htot)] at heq
        dsimp only at heq
        refine ⟨⟨(paramsOf json).Amount, (paramsOf json).StripeToken, "USD"⟩, ?_⟩
        rw [heq]
        split <;> simp
      · left
        rw [heq, hva, if_pos htot]
        exact ⟨rfl, rfl⟩

/-- One call keeps the ledger invariant, when the recomputed totals fit the store and the
Transaction recorded for a charge without error satisfies `good`. -/
theorem LedgerInv_step (good : Transaction → Prop) (w : World) (db : DB) (r : Request)
    (hfit : PricesFit w db r)
    (hgood : ∀ order p, Event.chargeNew p ∈ (PaymentCreate w db r).trace →
      (w.chargeNew p).2 = none → good (recordOf w order p))
    (hinv : LedgerInv good db) : LedgerInv good (PaymentCreate w db r).db := by
  rcases charged_or_unchanged w db r with ⟨hdb, -⟩ | ⟨p, hp⟩
  · rw [hdb]
    exact hinv
  · obtain ⟨json, order, settings, hv, -, -, herr, hok⟩ := charge_path w db r p hp
    have hf := hv.2.2.1
    have hunpaid := hv.2.2.2.1
    have hmem := First_mem db _ _ hf
    have hst := First_Storable db _ _ hf
    have hnone : settledFor db order.ID = [] := (hinv order hmem).2 hunpaid
    rcases hres : (w.chargeNew p).2 with _ | e
    · have heq := hok hres
      have hcalc : Event.calculatePrice settings ∈ (PaymentCreate w db r).trace := by
        rw [heq]
        simp
      have hsto : (settledOrder w order r.token settings).Storable :=
        settledOrder_Storable w order r.token settings (hfit settings hcalc order hf)
      have hg := hgood order p hp hres
      rw [heq]
      intro o ho
      have hpend := recordOf_pending w order p hres
      rcases mem_Save _ _ _ hsto ho with h1 | ⟨h1, h2⟩
      · subst h1
        refine ⟨fun _ => ⟨recordOf w order p, ?_, hg⟩, fun h => ?_⟩
        · rw [settledFor_Save, settledFor_Create, settledFor_claimedDB, settledOrder_ID,
            hnone]
          have : (recordOf w order p).OrderID = order.ID := rfl
          simp [this, hpend]
        · exact absurd rfl h
      · rw [settledOrder_ID] at h2
        have hset : settledFor (((claimedDB db order r.token).Create
            (recordOf w order p)).Save (settledOrder w order r.token settings)) o.ID
            = settledFor db o.ID := by
          rw [settledFor_Save, settledFor_Create, settledFor_claimedDB]
          have : ¬ ((recordOf w order p).OrderID = o.ID) := by
            intro hh
            exact h2 hh.symm
          simp [this]
        rw [hset]
        rcases mem_claimedDB db order r.token o hst h1 with h3 | h3
        · exfalso
          apply h2
          rw [h3]
          exact claimedOrder_ID order r.token
        · exact hinv o h3
    · have heq := herr e hres
      rw [heq]
      intro o ho
      have hfail := recordOf_failed w order p e hres
      have hset : settledFor ((claimedDB db order r.token).Create (recordOf w order p)) o.ID
          = settledFor db o.ID := by
        rw [settledFor_Create, settledFor_claimedDB]
        simp [hfail]
      rw [hset]
      rcases mem_claimedDB db order r.token o hst ho with h3 | h3
      · subst h3
        rw [claimedOrder_ID, claimedOrder_PaymentState]
        exact ⟨fun h => absurd h hunpaid, fun _ => hnone⟩
      · exact hinv o h3

theorem LedgerInv_fresh (good : Transaction → Prop) (db : DB) (h : FreshStore db) :
    LedgerInv good db := by
  intro o ho
  obtain ⟨id, sid, email, cur, rfl⟩ := h.2 o ho
  constructor
  · intro hp
    have hpend : (NewOrder id sid email cur).PaymentState = PendingState := rfl
    rw [hpend] at hp
    exact absurd hp (by decide)
  · intro _
    unfold settledFor
    rw [h.1]
    rfl

theorem LedgerInv_runCalls (good : Transaction → Prop) (calls : List (World × Request)) :
    ∀ db : DB, Along PricesFit db calls →
      Along (fun w db r => ∀ order p, Event.chargeNew p ∈ (PaymentCreate w db r).trace →
        (w.chargeNew p).2 = none → good (recordOf w order p)) db calls →
      LedgerInv good db → LedgerInv good (runCalls db calls) := by
  induction calls with
  | nil =>
    intro db _ _ hinv
    exact hinv
  | cons c cs ih =>
    intro db hfit hgood hinv
    unfold runCalls
    exact ih _ hfit.2 hgood.2 (LedgerInv_step good c.1 db c.2 hfit.1 hgood.1 hinv)

theorem Along_mono (P Q : World → DB → Request → Prop) (hPQ : ∀ w db r, P w db r → Q w db r)
    (calls : List (World × Request)) : ∀ db : DB, Along P db calls → Along Q db calls := by
  induction calls with
  | nil =>
    intro db _
    trivial
  | cons c cs ih =>
    intro db h
    exact ⟨hPQ _ _ _ h.1, ih _ h.2⟩

theorem Along_of_forall (P : World → DB → Request → Prop) (hP : ∀ w db r, P w db r)
    (calls : List (World × Request)) : ∀ db : DB, Along P db calls := by
  induction calls with
  | nil =>
    intro db
    trivial
  | cons c cs ih =>
    intro db
    exact ⟨hP _ _ _, ih _⟩

theorem recordOf_identified (w : World) (order : Order) (p : ChargeParams)
    (h : ∃ c, (w.chargeNew p).1 = some c ∧ c.ID ≠ "") :
    (recordOf w order p).ProcessorID ≠ "" := by
  obtain ⟨c, hc, hne⟩ := h
  simp [recordOf, hc, hne]

/-- A refused final `Save` breaks the ledger property: the Order of `storeOf orderAnon` is
charged at 2^63 (the `Save` is refused, the Order stays pending beside a pending
Transaction) and then settled again at 1000; it is then paid and has two Transactions
that are not failed. -/
theorem refused_Save_settles_twice :
    (runCalls (storeOf orderAnon)
        [(wHuge, request 9223372036854775808 none (some "tok_1") none),
         (wPaidAgain, request 1000 none (some "tok_1") none)]).First "o1"
        = some orderSettled ∧
      settledFor (runCalls (storeOf orderAnon)
        [(wHuge, request 9223372036854775808 none (some "tok_1") none),
         (wPaidAgain, request 1000 none (some "tok_1") none)]) "o1"
        = [⟨"tr_1", "o1", "ch_1", "", "", "pending"⟩,
           ⟨"tr_2", "o1", "ch_1", "", "", "pending"⟩] := by
  decide

/-- A calculator whose prices always fit gives totals that fit, at every store. -/
theorem PricesFit_of_bounded (w : World) (db : DB) (r : Request)
    (h : ∀ s c country currency coupon items,
      (w.CalculatePrice s c country currency coupon items).Subtotal < 2 ^ 63 ∧
      (w.CalculatePrice s c country currency coupon items).Taxes < 2 ^ 63 ∧
      (w.CalculatePrice s c country currency coupon items).Discount < 2 ^ 63 ∧
      (w.CalculatePrice s c country currency coupon items).Total < 2 ^ 63) :
    PricesFit w db r := by
  intro settings _ order hf
  have hst := First_Storable db _ _ hf
  obtain ⟨h1, h2, h3, h4⟩ := h settings [] order.ShippingAddress.Country order.Currency
    order.Coupon order.LineItems
  exact ⟨h2, hst.2.1, h1, h3, h4⟩

end api

/-! ## The claims -/

namespace api

open models

/-- C1: when `PaymentCreate` reaches `verifyAmount`, the total is recomputed by
`CalculateTotal` (with the settings `settings`) and that total differs from the requested
amount, the call fails with the amount-mismatch error, no charge is invoked, and the store
is as before the call: no Transaction, and the Order as it was (an ownership claim saved
earlier in the call is rolled back). -/
theorem C1_amount_mismatch_aborts (w : World) (db : DB) (r : Request) (json : PaymentJSON)
    (order : Order) (settings : SiteSettings)
    (hb : r.body = .ok json) (hf : db.First r.order_id = some order)
    (hreach : Event.calculatePrice settings ∈ (PaymentCreate w db r).trace)
    (hne : (order.CalculateTotal w.CalculatePrice settings []).Total ≠ (paramsOf json).Amount) :
    (PaymentCreate w db r).response =
        .internalServerError ("We failed to authorize the amount for this order: " ++
          mismatchError (order.CalculateTotal w.CalculatePrice settings []).Total
            (paramsOf json).Amount) ∧
      chargeCalls (PaymentCreate w db r).trace = [] ∧
      (PaymentCreate w db r).db = db := by
  rcases PaymentCreate_cases w db r with ⟨-, ht⟩ | ⟨json2, order2, hv⟩
  · rw [ht] at hreach
    simp at hreach
  · have hj : json2 = json := by
      have := hv.1
      rw [hb] at this
      injection this with this
      exact this.symm
    have ho : order2 = order := by
      have := hv.2.2.1
      rw [hf] at this
      injection this with this
      exact this.symm
    subst hj ho
    have heq := PaymentCreate_validated w db r json2 order2 hv
    rcases verifyAmount_cases w (claimedOrder order2 r.token) (paramsOf json2).Amount with
      ⟨err, hva, -⟩ | ⟨resp, settings2, -, -, hva⟩
    · rw [hva] at heq
      rw [heq] at hreach
      simp at hreach
    · by_cases htot : ((claimedOrder order2 r.token).CalculateTotal w.CalculatePrice
          settings2 []).Total = (paramsOf json2).Amount
      · rw [hva, if_neg (not_not.mpr htot)] at heq
        dsimp only at heq
        have hs : settings = settings2 := by
          rw [heq] at hreach
          split at hreach <;> simpa using hreach
        subst hs
        rw [claimedOrder_Total] at htot
        exact absurd htot hne
      · rw [hva, if_pos htot] at heq
        dsimp only at heq
        have hs : settings = settings2 := by
          rw [heq] at hreach
          simpa using hreach
        subst hs
        rw [heq, claimedOrder_Total]
        exact ⟨rfl, rfl, rfl⟩

/-- C1, at an input: the order is priced at 1000, the request asks for 999. -/
theorem C1_amount_mismatch_aborts_witness :
    (PaymentCreate wPaid (storeOf orderAnon)
        (request 999 none (some "tok_1") (some ⟨"U1"⟩))).response =
        .internalServerError ("We failed to authorize the amount for this order: " ++
          "Amount calculated for order didn't match amount to charge. 1000 vs 999") ∧
      chargeCalls (PaymentCreate wPaid (storeOf orderAnon)
        (request 999 none (some "tok_1") (some ⟨"U1"⟩))).trace = [] ∧
      (PaymentCreate wPaid (storeOf orderAnon)
        (request 999 none (some "tok_1") (some ⟨"U1"⟩))).db = storeOf orderAnon :=
  C1_amount_mismatch_aborts wPaid (storeOf orderAnon)
    (request 999 none (some "tok_1") (some ⟨"U1"⟩))
    { amount := some 999, currency := none, stripe_token := some "tok_1" }
    orderAnon { payload := "vat" } rfl (by decide) (by decide) (by decide)

/-- C3: a request with a non-empty charge token against an existing Order whose
PaymentState is "paid" fails with the already-paid error, whatever the amount, the currency
and the caller are; no collaborator is invoked (the trace is empty) and the store is as
before the call (no Transaction created, Order unchanged). -/
theorem C3_paid_order_rejected (w : World) (db : DB) (r : Request) (json : PaymentJSON)
    (order : Order)
    (hb : r.body = .ok json) (hs : (paramsOf json).StripeToken ≠ "")
    (hf : db.First r.order_id = some order) (hpaid : order.PaymentState = PaidState) :
    (PaymentCreate w db r).response = .badRequestError "This order has already been paid" ∧
      (PaymentCreate w db r).trace = [] ∧
      (PaymentCreate w db r).db = db := by
  have hs2 : ¬ (Decode { Amount := 0, Currency := "USD", StripeToken := "" } json).StripeToken
      = "" := hs
  unfold PaymentCreate
  simp only [hb, hf, if_neg hs2, if_pos hpaid, and_self]

/-- C3, at an input: a paid order, a request in another currency by another caller. -/
theorem C3_paid_order_rejected_witness :
    (PaymentCreate wPaid (storeOf orderPaid)
        (request 5 (some "EUR") (some "tok_1") (some ⟨"U2"⟩))).response
        = .badRequestError "This order has already been paid" ∧
      (PaymentCreate wPaid (storeOf orderPaid)
        (request 5 (some "EUR") (some "tok_1") (some ⟨"U2"⟩))).trace = [] ∧
      (PaymentCreate wPaid (storeOf orderPaid)
        (request 5 (some "EUR") (some "tok_1") (some ⟨"U2"⟩))).db = storeOf orderPaid :=
  C3_paid_order_rejected wPaid (storeOf orderPaid)
    (request 5 (some "EUR") (some "tok_1") (some ⟨"U2"⟩))
    { amount := some 5, currency := some "EUR", stripe_token := some "tok_1" }
    orderPaid rfl (by decide) (by decide) (by decide)

/-- C4 as stated fails: for an unpaid Order owned by "U1" whose currency matches the request,
an unauthenticated call whose body carries no charge token is rejected as a bad request
("Payments requires a stripe_token"), not as unauthorized. -/
theorem C4_counterexample :
    (storeOf orderOwned).First "o1" = some orderOwned ∧
      orderOwned.UserID ≠ "" ∧ orderOwned.PaymentState ≠ PaidState ∧
      orderOwned.Currency = (paramsOf ⟨some 1000, some "USD", none⟩).Currency ∧
      (request 1000 (some "USD") none none).token = none ∧
      (PaymentCreate wPaid (storeOf orderOwned) (request 1000 (some "USD") none none)).response
        = .badRequestError "Payments requires a stripe_token" ∧
      (PaymentCreate wPaid (storeOf orderOwned) (request 1000 (some "USD") none none)).response
        ≠ .unauthorizedError "You must be logged in to pay for this order" := by
  decide

/-- C4, amended: for a request with a non-empty charge token against an unpaid Order that
has a bound user and the requested currency, `PaymentCreate` rejects the call as
unauthorized when the caller has no token and when the identity of the caller token differs
from the UserID of the Order; no collaborator is invoked (the trace is empty) and the store
is as before the call (no Transaction created, Order and its UserID unchanged). -/
theorem C4_foreign_caller_unauthorized (w : World) (db : DB) (r : Request)
    (json : PaymentJSON) (order : Order)
    (hb : r.body = .ok json) (hs : (paramsOf json).StripeToken ≠ "")
    (hf : db.First r.order_id = some order) (hp : order.PaymentState ≠ PaidState)
    (hc : order.Currency = (paramsOf json).Currency) (hu : order.UserID ≠ "")
    (hcaller : r.token = none ∨ ∃ claims, r.token = some claims ∧ claims.ID ≠ order.UserID) :
    (PaymentCreate w db r).response
        = .unauthorizedError "You must be logged in to pay for this order" ∧
      (PaymentCreate w db r).trace = [] ∧
      (PaymentCreate w db r).db = db := by
  have hs2 : ¬ (Decode { Amount := 0, Currency := "USD", StripeToken := "" } json).StripeToken
      = "" := hs
  have hc2 : ¬ order.Currency
      ≠ (Decode { Amount := 0, Currency := "USD", StripeToken := "" } json).Currency := by
    simpa [paramsOf] using hc
  unfold PaymentCreate
  simp only [hb, hf, if_neg hs2, if_neg hp, if_neg hc2, if_neg hu]
  rcases hcaller with hn | ⟨claims, hsome, hne⟩
  · simp only [hn, and_self]
  · have hne2 : order.UserID ≠ claims.ID := fun h => hne h.symm
    simp only [hsome, if_pos hne2, and_self]

/-- C4 amended, at an input: the order of "U1", a caller with the identity "U2". -/
theorem C4_foreign_caller_unauthorized_witness :
    (PaymentCreate wPaid (storeOf orderOwned)
        (request 1000 none (some "tok_1") (some ⟨"U2"⟩))).response
        = .unauthorizedError "You must be logged in to pay for this order" ∧
      (PaymentCreate wPaid (storeOf orderOwned)
        (request 1000 none (some "tok_1") (some ⟨"U2"⟩))).trace = [] ∧
      (PaymentCreate wPaid (storeOf orderOwned)
        (request 1000 none (some "tok_1") (some ⟨"U2"⟩))).db = storeOf orderOwned :=
  C4_foreign_caller_unauthorized wPaid (storeOf orderOwned)
    (request 1000 none (some "tok_1") (some ⟨"U2"⟩))
    { amount := some 1000, currency := none, stripe_token := some "tok_1" }
    orderOwned rfl (by decide) (by decide) (by decide) (by decide) (by decide)
    (Or.inr ⟨⟨"U2"⟩, rfl, by decide⟩)

/-- C10 as stated fails: the settings answer has status 500 and a body that does not
decode, so no settings are obtained; `verifyAmount` does not decode it and returns no
error, the total is recomputed with empty settings, the charge is made and a Transaction
is created. -/
theorem C10_counterexample :
    wServerError.Get (settingsURL wServerError)
        = .ok { StatusCode := 500, Body := .error "unexpected end of JSON input" } ∧
      (verifyAmount wServerError orderAnon 1000).1 = none ∧
      (PaymentCreate wServerError (storeOf orderAnon)
          (request 1000 none (some "tok_1") none)).response
        = .sendJSON 200 ⟨"tr_1", "o1", "ch_1", "", "", "pending"⟩ ∧
      chargeCalls (PaymentCreate wServerError (storeOf orderAnon)
          (request 1000 none (some "tok_1") none)).trace = [⟨1000, "tok_1", "USD"⟩] ∧
      (PaymentCreate wServerError (storeOf orderAnon)
          (request 1000 none (some "tok_1") none)).db.transactions
        = [⟨"tr_1", "o1", "ch_1", "", "", "pending"⟩] := by
  refine ⟨rfl, by decide, by decide, by decide, by decide⟩

/-- C10, amended: in a call that makes the settings fetch, (1) when the fetch fails, or
the answer has status 200 and a body that does not decode, `verifyAmount` returns that
error and `PaymentCreate` aborts with a server-side failure: no charge is invoked and the
store is as before the call (no Transaction created, Order unchanged); (2) an answer with
any other status is not decoded: `verifyAmount` recomputes the total with empty settings
and returns an error only when that total differs from the amount. -/
theorem C10_settings_unavailable_aborts (w : World) (db : DB) (r : Request)
    (hreach : Event.settingsGet (settingsURL w) ∈ (PaymentCreate w db r).trace) :
    (∀ err, (w.Get (settingsURL w) = .error err ∨
        ∃ resp, w.Get (settingsURL w) = .ok resp ∧ resp.StatusCode = 200 ∧
          resp.Body = .error err) →
      (∀ order amount, (verifyAmount w order amount).1 = some err) ∧
      (PaymentCreate w db r).response
        = .internalServerError ("We failed to authorize the amount for this order: " ++ err) ∧
      chargeCalls (PaymentCreate w db r).trace = [] ∧
      (PaymentCreate w db r).db = db) ∧
    (∀ resp, w.Get (settingsURL w) = .ok resp → resp.StatusCode ≠ 200 →
      ∀ order amount, verifyAmount w order amount =
        (if (order.CalculateTotal w.CalculatePrice { payload := "" } []).Total ≠ amount then
            some (mismatchError
              (order.CalculateTotal w.CalculatePrice { payload := "" } []).Total amount)
          else none,
         order.CalculateTotal w.CalculatePrice { payload := "" } [],
         [Event.settingsGet (settingsURL w), Event.calculatePrice { payload := "" }])) := by
  constructor
  · intro err hfail
    have hva : ∀ order amount,
        verifyAmount w order amount
          = (some err, order, [Event.settingsGet (settingsURL w)]) := by
      intro order amount
      rcases verifyAmount_cases w order amount with
        ⟨err2, hva, hcause⟩ | ⟨resp, settings, hget, hdec, -⟩
      · have : err2 = err := by
          rcases hfail with h1 | ⟨resp, h1, h2, h3⟩ <;>
            rcases hcause with g1 | ⟨resp2, g1, g2, g3⟩
          · rw [h1] at g1
            injection g1 with g1
            exact g1.symm
          · rw [h1] at g1
            cases g1
          · rw [h1] at g1
            cases g1
          · rw [h1] at g1
            injection g1 with g1
            subst g1
            rw [h3] at g3
            injection g3 with g3
            exact g3.symm
        rw [hva, this]
      · exfalso
        rcases hfail with h1 | ⟨resp2, h1, h2, h3⟩
        · rw [h1] at hget
          cases hget
        · rw [h1] at hget
          injection hget with hget
          subst hget
          rw [if_pos h2, h3] at hdec
          cases hdec
    refine ⟨fun order amount => by rw [hva], ?_⟩
    rcases PaymentCreate_cases w db r with ⟨-, ht⟩ | ⟨json, order, hv⟩
    · rw [ht] at hreach
      simp at hreach
    · rw [PaymentCreate_validated w db r json order hv, hva]
      exact ⟨rfl, rfl, rfl⟩
  · intro resp hget h200 order amount
    rcases verifyAmount_cases w order amount with
      ⟨err2, -, hcause⟩ | ⟨resp2, settings, hget2, hdec, hva⟩
    · exfalso
      rcases hcause with g1 | ⟨resp2, g1, g2, -⟩
      · rw [hget] at g1
        cases g1
      · rw [hget] at g1
        injection g1 with g1
        subst g1
        exact h200 g2
    · rw [hget] at hget2
      injection hget2 with hget2
      subst hget2
      rw [if_neg h200] at hdec
      injection hdec with hdec
      subst hdec
      exact hva

/-- C10 amended, at two inputs: a settings fetch that fails with a connection error
(the call aborts), and one answered with status 500 and a body that does not decode
(`verifyAmount` goes on with empty settings). -/
theorem C10_settings_unavailable_aborts_witness :
    ((∀ order amount, (verifyAmount wUnreachable order amount).1
          = some "dial tcp: connection refused") ∧
        (PaymentCreate wUnreachable (storeOf orderAnon)
            (request 1000 none (some "tok_1") none)).response
          = .internalServerError ("We failed to authorize the amount for this order: " ++
              "dial tcp: connection refused") ∧
        chargeCalls (PaymentCreate wUnreachable (storeOf orderAnon)
            (request 1000 none (some "tok_1") none)).trace = [] ∧
        (PaymentCreate wUnreachable (storeOf orderAnon)
            (request 1000 none (some "tok_1") none)).db = storeOf orderAnon) ∧
      (∀ order amount, verifyAmount wServerError order amount =
        (if (order.CalculateTotal wServerError.CalculatePrice { payload := "" } []).Total
              ≠ amount then
            some (mismatchError
              (order.CalculateTotal wServerError.CalculatePrice { payload := "" } []).Total
              amount)
          else none,
         order.CalculateTotal wServerError.CalculatePrice { payload := "" } [],
         [Event.settingsGet (settingsURL wServerError),
          Event.calculatePrice { payload := "" }])) :=
  ⟨(C10_settings_unavailable_aborts wUnreachable (storeOf orderAnon)
      (request 1000 none (some "tok_1") none) (by decide)).1
      "dial tcp: connection refused" (Or.inl rfl),
   (C10_settings_unavailable_aborts wServerError (storeOf orderAnon)
      (request 1000 none (some "tok_1") none) (by decide)).2
      { StatusCode := 500, Body := .error "unexpected end of JSON input" } rfl (by decide)⟩

/-- What a call that makes the charge `p` records: exactly one Transaction `tr`, which
carries the charge identifier whenever the processor returned a charge; on an error `e`
it has status "failed" and failure description `e` and the stored Order keeps its
PaymentState, which is not "paid"; without error it has status "pending", and the stored
Order has PaymentState "paid" when the store accepts the order with its recomputed totals
and keeps its PaymentState when the store refuses it. -/
theorem charge_outcome_recorded (w : World) (db : DB) (r : Request)
    (p : ChargeParams) (h : Event.chargeNew p ∈ (PaymentCreate w db r).trace) :
    ∃ order settings tr stored,
      db.First r.order_id = some order ∧
      Event.calculatePrice settings ∈ (PaymentCreate w db r).trace ∧
      (PaymentCreate w db r).db.transactions = db.transactions ++ [tr] ∧
      (PaymentCreate w db r).db.First r.order_id = some stored ∧
      (∀ c, (w.chargeNew p).1 = some c → tr.ProcessorID = c.ID) ∧
      (∀ e, (w.chargeNew p).2 = some e →
        tr.Status = "failed" ∧ tr.FailureDescription = e ∧
        stored.PaymentState = order.PaymentState ∧ stored.PaymentState ≠ PaidState) ∧
      ((w.chargeNew p).2 = none → tr.Status = "pending" ∧
        ((order.CalculateTotal w.CalculatePrice settings []).Storable →
          stored.PaymentState = PaidState) ∧
        (¬ (order.CalculateTotal w.CalculatePrice settings []).Storable →
          stored.PaymentState = order.PaymentState)) := by
  obtain ⟨json, order, settings, hv, -, -, herr, hok⟩ := charge_path w db r p h
  have hf := hv.2.2.1
  have hcl := claimedDB_First db r.order_id order r.token hf
  rcases hres : (w.chargeNew p).2 with _ | e
  · have heq := hok hres
    have hcalc : Event.calculatePrice settings ∈ (PaymentCreate w db r).trace := by
      rw [heq]
      simp
    by_cases hsto : (order.CalculateTotal w.CalculatePrice settings []).Storable
    · refine ⟨order, settings, recordOf w order p, settledOrder w order r.token settings,
        hf, hcalc, ?_, ?_, ?_, ?_, ?_⟩
      · rw [heq]
        show (DB.Save _ _).transactions = _
        rw [Save_transactions]
        show (claimedDB db order r.token).transactions ++ _ = _
        rw [claimedDB_transactions]
      · rw [heq]
        apply First_Save _ _ (claimedOrder order r.token)
        · rw [First_Create]
          exact hcl
        · rw [settledOrder_ID]
          exact First_ID db _ _ hf
        · exact settledOrder_Storable w order r.token settings hsto
      · intro c hc
        simp [recordOf, hc]
      · intro e he
        cases he
      · intro _
        exact ⟨by simp [recordOf, hres], fun _ => rfl, fun hn => absurd hsto hn⟩
    · have hsto2 : ¬ (settledOrder w order r.token settings).Storable := by
        intro hh
        apply hsto
        unfold settledOrder claimedOrder at hh
        split at hh <;> [split at hh; skip] <;> exact hh
      refine ⟨order, settings, recordOf w order p, claimedOrder order r.token,
        hf, hcalc, ?_, ?_, ?_, ?_, ?_⟩
      · rw [heq]
        show (DB.Save _ _).transactions = _
        rw [Save_transactions]
        show (claimedDB db order r.token).transactions ++ _ = _
        rw [claimedDB_transactions]
      · rw [heq]
        show (DB.Save _ _).First _ = _
        rw [Save_refused _ _ hsto2, First_Create]
        exact hcl
      · intro c hc
        simp [recordOf, hc]
      · intro e he
        cases he
      · intro _
        exact ⟨by simp [recordOf, hres], fun hy => absurd hy hsto,
          fun _ => claimedOrder_PaymentState order r.token⟩
  · have heq := herr e hres
    have hcalc : Event.calculatePrice settings ∈ (PaymentCreate w db r).trace := by
      rw [heq]
      simp
    refine ⟨order, settings, recordOf w order p, claimedOrder order r.token,
      hf, hcalc, ?_, ?_, ?_, ?_, ?_⟩
    · rw [heq]
      show (claimedDB db order r.token).transactions ++ _ = _
      rw [claimedDB_transactions]
    · rw [heq]
      show ((claimedDB db order r.token).Create _).First _ = _
      rw [First_Create]
      exact hcl
    · intro c hc
      simp [recordOf, hc]
    · intro e2 he
      injection he with he
      subst he
      refine ⟨by simp [recordOf, hres], by simp [recordOf, hres], ?_, ?_⟩
      · exact claimedOrder_PaymentState order r.token
      · rw [claimedOrder_PaymentState]
        exact hv.2.2.2.1
    · intro hnone
      cases hnone

/-- C2, the code at the failing input: an anonymous pending Order priced at 2^63, a request
for that amount, a charge that succeeds with reference "ch_1". All validations pass, the
charge is made, the Transaction is recorded with status "pending" and returned with status
200, but the final `Save` of the Order is refused (its total does not fit the column) and
its result is ignored: the stored Order is the Order from before the call, PaymentState
"pending". -/
theorem C2_charged_order_stays_pending :
    (storeOf orderAnon).First "o1" = some orderAnon ∧
      Event.chargeNew ⟨9223372036854775808, "tok_1", "USD"⟩ ∈
        (PaymentCreate wHuge (storeOf orderAnon)
          (request 9223372036854775808 none (some "tok_1") none)).trace ∧
      (wHuge.chargeNew ⟨9223372036854775808, "tok_1", "USD"⟩).2 = none ∧
      (PaymentCreate wHuge (storeOf orderAnon)
          (request 9223372036854775808 none (some "tok_1") none)).response
        = .sendJSON 200 ⟨"tr_1", "o1", "ch_1", "", "", "pending"⟩ ∧
      (PaymentCreate wHuge (storeOf orderAnon)
          (request 9223372036854775808 none (some "tok_1") none)).db.transactions
        = [⟨"tr_1", "o1", "ch_1", "", "", "pending"⟩] ∧
      (PaymentCreate wHuge (storeOf orderAnon)
          (request 9223372036854775808 none (some "tok_1") none)).db.First "o1"
        = some orderAnon ∧
      orderAnon.PaymentState = PendingState ∧ orderAnon.PaymentState ≠ PaidState := by
  decide

/-- C5: when an anonymous Order (empty UserID) is settled by an authenticated caller `U1`
in a call that invokes the charge, the stored Order has the UserID of `U1` after the call,
whether the charge succeeds or fails. -/
theorem C5_anonymous_order_claimed (w : World) (db : DB) (r : Request) (p : ChargeParams)
    (order : Order) (U1 : JWTClaims)
    (hf : db.First r.order_id = some order) (hanon : order.UserID = "")
    (htok : r.token = some U1)
    (h : Event.chargeNew p ∈ (PaymentCreate w db r).trace) :
    ∃ stored, (PaymentCreate w db r).db.First r.order_id = some stored ∧
      stored.UserID = U1.ID := by
  obtain ⟨json, order2, settings, hv, -, -, herr, hok⟩ := charge_path w db r p h
  have ho : order2 = order := by
    have := hv.2.2.1
    rw [hf] at this
    injection this with this
    exact this.symm
  subst ho
  have hcl := claimedDB_First db r.order_id order2 r.token hf
  have hown : (claimedOrder order2 r.token).UserID = U1.ID := by
    simp [claimedOrder, htok, hanon]
  rcases hres : (w.chargeNew p).2 with _ | e
  · rw [hok hres]
    by_cases hsto : (settledOrder w order2 r.token settings).Storable
    · refine ⟨settledOrder w order2 r.token settings,
        First_Save _ _ (claimedOrder order2 r.token) _ ?_ ?_ hsto, ?_⟩
      · rw [First_Create]
        exact hcl
      · rw [settledOrder_ID]
        exact First_ID db _ _ hf
      · exact hown
    · refine ⟨claimedOrder order2 r.token, ?_, hown⟩
      show (DB.Save _ _).First _ = _
      rw [Save_refused _ _ hsto, First_Create]
      exact hcl
  · rw [herr e hres]
    refine ⟨claimedOrder order2 r.token, ?_, hown⟩
    show ((claimedDB db order2 r.token).Create _).First _ = _
    rw [First_Create]
    exact hcl

/-- C5, at an input: the anonymous order, the caller "U1", a declined card. -/
theorem C5_anonymous_order_claimed_witness :
    ∃ stored, (PaymentCreate wDeclined (storeOf orderAnon)
        (request 1000 none (some "tok_1") (some ⟨"U1"⟩))).db.First "o1" = some stored ∧
      stored.UserID = "U1" :=
  C5_anonymous_order_claimed wDeclined (storeOf orderAnon)
    (request 1000 none (some "tok_1") (some ⟨"U1"⟩)) ⟨1000, "tok_1", "USD"⟩
    orderAnon ⟨"U1"⟩ (by decide) rfl rfl (by decide)

/-- C6 as stated fails: an anonymous Order is settled by the caller "U1" and the card is
declined; the failed Transaction is committed together with the ownership claim, so the
stored Order has UserID "U1" after the call and is not the Order stored before. -/
theorem C6_counterexample :
    Event.chargeNew ⟨1000, "tok_1", "USD"⟩ ∈
        (PaymentCreate wDeclined (storeOf orderAnon)
          (request 1000 none (some "tok_1") (some ⟨"U1"⟩))).trace ∧
      (wDeclined.chargeNew ⟨1000, "tok_1", "USD"⟩).2 = some "card_declined" ∧
      (storeOf orderAnon).First "o1" = some orderAnon ∧
      (PaymentCreate wDeclined (storeOf orderAnon)
          (request 1000 none (some "tok_1") (some ⟨"U1"⟩))).db.First "o1"
        = some orderOwned ∧
      orderOwned.UserID ≠ orderAnon.UserID ∧
      (PaymentCreate wDeclined (storeOf orderAnon)
          (request 1000 none (some "tok_1") (some ⟨"U1"⟩))).db.orders
        ≠ (storeOf orderAnon).orders := by
  decide

/-- C6, amended: when the charge returns an error, the failed Transaction is committed and
the only change to the stored Order is the ownership claim: the stored Order after the call
is the Order before the call with the UserID that ownership resolution gave it (the
identity of the caller when the Order was anonymous and the caller authenticated), every
other field as before; when the Order had an owner or the caller had no token the orders
table is unchanged. -/
theorem C6_failed_charge_keeps_order (w : World) (db : DB) (r : Request) (p : ChargeParams)
    (e : String) (order : Order)
    (hf : db.First r.order_id = some order)
    (h : Event.chargeNew p ∈ (PaymentCreate w db r).trace)
    (he : (w.chargeNew p).2 = some e) :
    (∃ tr, (PaymentCreate w db r).db.transactions = db.transactions ++ [tr] ∧
        tr.Status = "failed") ∧
      (PaymentCreate w db r).db.First r.order_id
        = some { order with UserID := (claimedOrder order r.token).UserID } ∧
      (order.UserID ≠ "" ∨ r.token = none → (PaymentCreate w db r).db.orders = db.orders) := by
  obtain ⟨json, order2, settings, hv, -, -, herr, -⟩ := charge_path w db r p h
  have ho : order2 = order := by
    have := hv.2.2.1
    rw [hf] at this
    injection this with this
    exact this.symm
  subst ho
  rw [herr e he]
  refine ⟨⟨recordOf w order2 p, ?_, by simp [recordOf, he]⟩, ?_, ?_⟩
  · show (claimedDB db order2 r.token).transactions ++ _ = _
    rw [claimedDB_transactions]
  · show ((claimedDB db order2 r.token).Create _).First _ = _
    rw [First_Create, claimedDB_First db r.order_id order2 r.token hf]
    congr 1
    unfold claimedOrder
    split <;> [split; skip] <;> rfl
  · intro hcase
    show (claimedDB db order2 r.token).orders = _
    unfold claimedDB
    rcases hcase with hu | hn
    · split
      · rw [if_neg hu]
      · rfl
    · rw [hn]

/-- C6 amended, at an input: the order of "U1" settled by "U1" with a declined card. -/
theorem C6_failed_charge_keeps_order_witness :
    (∃ tr, (PaymentCreate wDeclined (storeOf orderOwned)
          (request 1000 none (some "tok_1") (some ⟨"U1"⟩))).db.transactions
          = (storeOf orderOwned).transactions ++ [tr] ∧
        tr.Status = "failed") ∧
      (PaymentCreate wDeclined (storeOf orderOwned)
          (request 1000 none (some "tok_1") (some ⟨"U1"⟩))).db.First "o1"
        = some { orderOwned with UserID := (claimedOrder orderOwned (some ⟨"U1"⟩)).UserID } ∧
      (orderOwned.UserID ≠ "" ∨ (some (⟨"U1"⟩ : JWTClaims)) = none →
        (PaymentCreate wDeclined (storeOf orderOwned)
          (request 1000 none (some "tok_1") (some ⟨"U1"⟩))).db.orders
          = (storeOf orderOwned).orders) :=
  C6_failed_charge_keeps_order wDeclined (storeOf orderOwned)
    (request 1000 none (some "tok_1") (some ⟨"U1"⟩)) ⟨1000, "tok_1", "USD"⟩
    "card_declined" orderOwned (by decide) (by decide) rfl

/-- C7 as stated fails: all validations pass, the charge is invoked and the card is
declined; the response is the internal server error "There was an error charging your
card: card_declined", not a successful response carrying the Transaction. -/
theorem C7_counterexample :
    Event.chargeNew ⟨1000, "tok_1", "USD"⟩ ∈
        (PaymentCreate wDeclined (storeOf orderAnon)
          (request 1000 none (some "tok_1") none)).trace ∧
      (wDeclined.chargeNew ⟨1000, "tok_1", "USD"⟩).2 = some "card_declined" ∧
      (PaymentCreate wDeclined (storeOf orderAnon)
          (request 1000 none (some "tok_1") none)).response
        = .internalServerError "There was an error charging your card: card_declined" ∧
      ¬ ∃ code tr, (PaymentCreate wDeclined (storeOf orderAnon)
          (request 1000 none (some "tok_1") none)).response = .sendJSON code tr := by
  refine ⟨by decide, rfl, by decide, ?_⟩
  rintro ⟨code, tr, h⟩
  have h2 : (PaymentCreate wDeclined (storeOf orderAnon)
      (request 1000 none (some "tok_1") none)).response
      = .internalServerError "There was an error charging your card: card_declined" := by
    decide
  rw [h2] at h
  cases h

/-- C7, amended: when all validations pass and the charge returns an error `e`,
`PaymentCreate` records the Transaction with status "failed" and failure description `e`,
and answers with the internal server error "There was an error charging your card: e";
the response does not carry the Transaction. -/
theorem C7_failed_charge_is_server_error (w : World) (db : DB) (r : Request)
    (p : ChargeParams) (e : String)
    (h : Event.chargeNew p ∈ (PaymentCreate w db r).trace)
    (he : (w.chargeNew p).2 = some e) :
    (PaymentCreate w db r).response
        = .internalServerError ("There was an error charging your card: " ++ e) ∧
      ∃ tr, (PaymentCreate w db r).db.transactions = db.transactions ++ [tr] ∧
        tr.Status = "failed" ∧ tr.FailureCode = "500" ∧ tr.FailureDescription = e := by
  obtain ⟨json, order, settings, hv, -, -, herr, -⟩ := charge_path w db r p h
  rw [herr e he]
  refine ⟨rfl, recordOf w order p, ?_, by simp [recordOf, he], by simp [recordOf, he],
    by simp [recordOf, he]⟩
  show (claimedDB db order r.token).transactions ++ _ = _
  rw [claimedDB_transactions]

/-- C7 amended, at an input: the anonymous order and a declined card. -/
theorem C7_failed_charge_is_server_error_witness :
    (PaymentCreate wDeclined (storeOf orderAnon)
          (request 1000 none (some "tok_1") none)).response
        = .internalServerError ("There was an error charging your card: " ++ "card_declined") ∧
      ∃ tr, (PaymentCreate wDeclined (storeOf orderAnon)
          (request 1000 none (some "tok_1") none)).db.transactions
          = (storeOf orderAnon).transactions ++ [tr] ∧
        tr.Status = "failed" ∧ tr.FailureCode = "500" ∧
        tr.FailureDescription = "card_declined" :=
  C7_failed_charge_is_server_error wDeclined (storeOf orderAnon)
    (request 1000 none (some "tok_1") none) ⟨1000, "tok_1", "USD"⟩ "card_declined"
    (by decide) rfl

/-- C8, the code at the failing input: an Order in "EUR", a request for its recomputed
total 1000 in "EUR" with charge token "tok_1". All validations pass and the charge is invoked
exactly once, with the requested amount and the charge token, but with the currency "USD"
and not the currency of the Order. -/
theorem C8_charge_currency_is_USD :
    (storeOf orderEUR).First "o1" = some orderEUR ∧ orderEUR.Currency = "EUR" ∧
      (paramsOf ⟨some 1000, some "EUR", some "tok_1"⟩).Currency = "EUR" ∧
      chargeCalls (PaymentCreate wPaid (storeOf orderEUR)
          (request 1000 (some "EUR") (some "tok_1") none)).trace
        = [⟨1000, "tok_1", "USD"⟩] ∧
      (PaymentCreate wPaid (storeOf orderEUR)
          (request 1000 (some "EUR") (some "tok_1") none)).response
        = .sendJSON 200 ⟨"tr_1", "o1", "ch_1", "", "", "pending"⟩ := by
  decide

/-- C9 as stated fails: a fresh Order is settled by one call whose charge returns no error
and a charge with an empty identifier (all amounts are small and every `Save` is
accepted); the Order is then paid and its one Transaction that is not failed has an empty
processor reference. -/
theorem C9_counterexample :
    FreshStore (storeOf orderAnon) ∧
      runCalls (storeOf orderAnon) [(wNoReference, request 1000 none (some "tok_1") none)]
        = storeNoReference ∧
      orderSettled ∈ storeNoReference.orders ∧ orderSettled.PaymentState = PaidState ∧
      settledFor storeNoReference orderSettled.ID = [⟨"tr_1", "o1", "", "", "", "pending"⟩] ∧
      ¬ PaidHasOne (fun t => t.ProcessorID ≠ "")
        (runCalls (storeOf orderAnon)
          [(wNoReference, request 1000 none (some "tok_1") none)]) := by
  have hrun : runCalls (storeOf orderAnon)
      [(wNoReference, request 1000 none (some "tok_1") none)] = storeNoReference := by
    decide
  have hval : settledFor storeNoReference orderSettled.ID
      = [⟨"tr_1", "o1", "", "", "", "pending"⟩] := by
    decide
  refine ⟨⟨by decide, ?_⟩, hrun, List.mem_singleton.mpr rfl, rfl, hval, ?_⟩
  · intro o ho
    refine ⟨"o1", "s1", "a@b.c", "USD", ?_⟩
    have hst : (storeOf orderAnon).orders = [orderAnon] := by decide
    rw [hst] at ho
    exact List.mem_singleton.mp ho
  · intro hall
    rw [hrun] at hall
    obtain ⟨t, ht, hgood⟩ := hall orderSettled (List.mem_singleton.mpr rfl) rfl
    rw [hval] at ht
    injection ht with ht _
    subst ht
    exact hgood rfl

/-- C9, amended: in every store reached from NewOrder-made orders without Transactions by
a sequence of `PaymentCreate` calls (any requests, settings and charge outcomes) in which
every recomputed total fits the signed 64-bit columns of the store, an Order whose
PaymentState is "paid" has exactly one Transaction whose status is not "failed"; and when
every charge made in the sequence that came back without error carried a charge with a
non-empty identifier, that Transaction has a non-empty processor reference. -/
theorem C9_paid_order_has_one_settled_transaction (db : DB)
    (calls : List (World × Request)) (hfresh : FreshStore db)
    (hfit : Along PricesFit db calls) :
    PaidHasOne (fun _ => True) (runCalls db calls) ∧
      (Along ChargesIdentified db calls →
        PaidHasOne (fun t => t.ProcessorID ≠ "") (runCalls db calls)) := by
  constructor
  · intro o ho hp
    exact (LedgerInv_runCalls (fun _ => True) calls db hfit
      (Along_of_forall _ (fun _ _ _ _ _ _ _ => trivial) calls db)
      (LedgerInv_fresh _ db hfresh) o ho).1 hp
  · intro hid o ho hp
    exact (LedgerInv_runCalls (fun t => t.ProcessorID ≠ "") calls db hfit
      (Along_mono ChargesIdentified _
        (fun w db r h order p hp he => recordOf_identified w order p (h p hp he)) calls db hid)
      (LedgerInv_fresh _ db hfresh) o ho).1 hp

/-- C9 amended, at an input: a declined attempt (Transaction "tr_1") followed by a
successful one (Transaction "tr_2"), both priced at 1000. -/
theorem C9_paid_order_has_one_settled_transaction_witness :
    PaidHasOne (fun _ => True)
        (runCalls (storeOf orderAnon)
          [(wDeclined, request 1000 none (some "tok_1") none),
           (wPaidAgain, request 1000 none (some "tok_1") none)]) ∧
      (Along ChargesIdentified (storeOf orderAnon)
          [(wDeclined, request 1000 none (some "tok_1") none),
           (wPaidAgain, request 1000 none (some "tok_1") none)] →
        PaidHasOne (fun t => t.ProcessorID ≠ "")
          (runCalls (storeOf orderAnon)
            [(wDeclined, request 1000 none (some "tok_1") none),
             (wPaidAgain, request 1000 none (some "tok_1") none)])) :=
  C9_paid_order_has_one_settled_transaction (storeOf orderAnon)
    [(wDeclined, request 1000 none (some "tok_1") none),
     (wPaidAgain, request 1000 none (some "tok_1") none)]
    ⟨by decide, fun o ho => ⟨"o1", "s1", "a@b.c", "USD",
      List.mem_singleton.mp (show o ∈ [orderAnon] from ho)⟩⟩
    ⟨PricesFit_of_bounded _ _ _ (fun _ _ _ _ _ _ =>
        ⟨(by decide : (900 : Nat) < 2 ^ 63), (by decide : (100 : Nat) < 2 ^ 63),
         (by decide : (0 : Nat) < 2 ^ 63), (by decide : (1000 : Nat) < 2 ^ 63)⟩),
     PricesFit_of_bounded _ _ _ (fun _ _ _ _ _ _ =>
        ⟨(by decide : (900 : Nat) < 2 ^ 63), (by decide : (100 : Nat) < 2 ^ 63),
         (by decide : (0 : Nat) < 2 ^ 63), (by decide : (1000 : Nat) < 2 ^ 63)⟩),
     trivial⟩

end api
